import Mathlib

/-!
Shallow embedding of the Wasallha customer dashboard core
(`src/CustomerDashboard.tsx`): the pricing functions `getEstimatedPrice`
and `getDeliveryPrice`, the cart operations `addToCart` / `removeFromCart`
of `RestaurantMenuView`, and the order mutations `handleAcceptOffer` /
`handleRateOrder` expressed against a model of the Firestore document
store (an association list of order documents; `updateDoc` succeeds
exactly when the document exists and applies its field update atomically).

JavaScript numbers are modelled as rationals; `Math.round` is
`fun x => Int.floor (x + 1/2)` (round half toward positive infinity),
`Math.max` is `max`, and falsy-coalescing (`v || d`) on the multiplier
and the driver photo is modelled explicitly.
-/

namespace Wasallha

/-- Order categories, as in the `OrderCategory` type used by the dashboard. -/
inductive OrderCategory
  | TAXI
  | FOOD
  | PHARMACY
  deriving DecidableEq, Repr

/-- Vehicle types, as in the `VehicleType` enum. -/
inductive VehicleType
  | MOTORCYCLE
  | TOKTOK
  | CAR
  deriving DecidableEq, Repr

/-- Order lifecycle states, as in the `OrderStatus` enum. -/
inductive OrderStatus
  | WAITING_FOR_OFFERS
  | ACCEPTED
  | ACTIVE_DELIVERY
  | DELIVERED
  | DELIVERED_RATED
  | CANCELLED
  deriving DecidableEq, Repr

/-- Geographic center point of a village. -/
structure Coord where
  lat : ℚ
  lng : ℚ
  deriving DecidableEq, Repr

/-- A village of the static location graph. -/
structure Village where
  id : String
  name : String
  center : Coord
  deriving DecidableEq, Repr

/-- A restaurant, as consumed by `RestaurantMenuView`; only the fields the
embedded functions read are kept. -/
structure Restaurant where
  name : String
  address : String
  lat : ℚ
  lng : ℚ
  deriving DecidableEq, Repr

/-- A menu item of a restaurant. -/
structure MenuItem where
  id : String
  name : String
  price : ℚ
  deriving DecidableEq, Repr

/-- A cart line item of a food order. -/
structure CartItem where
  id : String
  name : String
  price : ℚ
  quantity : ℕ
  deriving DecidableEq, Repr

/-- A courier's offer against an open order. -/
structure Offer where
  id : String
  orderId : String
  driverId : String
  driverName : String
  driverPhone : String
  driverPhoto : Option String
  driverRating : Option ℚ
  price : ℚ
  deriving DecidableEq, Repr

/-- An order document; the fields touched by the embedded operations. -/
structure Order where
  customerId : String
  customerPhone : String
  category : OrderCategory
  status : OrderStatus
  price : ℚ
  distance : ℚ
  driverId : Option String
  driverName : Option String
  driverPhone : Option String
  driverPhoto : Option String
  createdAt : ℕ
  acceptedAt : Option ℕ
  ratedAt : Option ℕ
  rating : Option ℕ
  feedback : Option String
  deriving DecidableEq, Repr

/-- The pricing constants destructured from `DEFAULT_PRICING`
(`basePrice, pricePerKm, minPrice, sameVillagePrice, deliveryBasePrice,
foodOutsidePricePerKm` and the per-vehicle `multipliers` map, in which a
vehicle type may be absent). -/
structure PricingConfig where
  basePrice : ℚ
  pricePerKm : ℚ
  minPrice : ℚ
  sameVillagePrice : ℚ
  deliveryBasePrice : ℚ
  foodOutsidePricePerKm : ℚ
  multipliers : VehicleType → Option ℚ

/-- JavaScript `Math.round`: round half toward positive infinity. -/
def jsRound (x : ℚ) : ℤ := ⌊x + 1/2⌋

/-- The multiplier expression `DEFAULT_PRICING.multipliers[selectedVehicle] || 1`:
an absent entry, and the falsy value `0`, both coalesce to `1`. -/
def effectiveMultiplier (cfg : PricingConfig) (v : VehicleType) : ℚ :=
  match cfg.multipliers v with
  | some m => if m = 0 then 1 else m
  | none => 1

/-- `getEstimatedPrice` of `CustomerDashboard` (source lines 452-473),
parametrised over the component state it reads: the selected category and
vehicle, the optional pickup and dropoff villages, and `actualRoadDist`
(whose initial value, kept when the distance oracle fails, is `0`).
`pickupVillage?.id === dropoffVillage.id` is `pickupVillage.map Village.id
= some dv.id` (the optional chain on a null pickup yields `undefined`,
which is never `===` a string id). -/
def getEstimatedPrice (cfg : PricingConfig) (selectedCategory : OrderCategory)
    (selectedVehicle : VehicleType) (pickupVillage : Option Village)
    (dropoffVillage : Option Village) (actualRoadDist : ℚ) : ℚ :=
  match dropoffVillage with
  | none => 0
  | some dv =>
    let multiplier := effectiveMultiplier cfg selectedVehicle
    if selectedCategory = OrderCategory.TAXI ∧ pickupVillage.map Village.id = some dv.id then
      cfg.sameVillagePrice
    else if selectedCategory = OrderCategory.PHARMACY then
      let calcVal := (cfg.deliveryBasePrice + actualRoadDist * cfg.pricePerKm) * multiplier
      max cfg.deliveryBasePrice ((jsRound calcVal : ℤ) : ℚ)
    else if selectedCategory = OrderCategory.FOOD ∧ pickupVillage.map Village.id ≠ some dv.id then
      ((jsRound (actualRoadDist * cfg.foodOutsidePricePerKm) : ℤ) : ℚ)
    else
      let calcVal := (cfg.basePrice + actualRoadDist * cfg.pricePerKm) * multiplier
      max cfg.minPrice ((jsRound calcVal : ℤ) : ℚ)

/-- `getDeliveryPrice` of `RestaurantMenuView` (source lines 232-246):
same-village detection is the string equality
`restaurant.address === currentVillage.name`; otherwise the delivery
price is `Math.round(roadDist * foodOutsidePricePerKm)`. -/
def getDeliveryPrice (cfg : PricingConfig) (restaurant : Restaurant)
    (currentVillage : Option Village) (roadDist : ℚ) : ℚ :=
  match currentVillage with
  | none => 0
  | some v =>
    if restaurant.address = v.name then cfg.sameVillagePrice
    else ((jsRound (roadDist * cfg.foodOutsidePricePerKm) : ℤ) : ℚ)

/-- Spec formula for cross-village taxi pricing, written from the spec's
words (`round(max(minPrice, (basePrice + distanceKm*pricePerKm) *
vehicleMultiplier))`) for comparison with the source's `getEstimatedPrice`. -/
def specTaxiCrossPrice (cfg : PricingConfig) (mult dist : ℚ) : ℚ :=
  ((jsRound (max cfg.minPrice ((cfg.basePrice + dist * cfg.pricePerKm) * mult)) : ℤ) : ℚ)

/-- Spec formula for pharmacy pricing, written from the spec's words
(`round(max(deliveryBasePrice, (deliveryBasePrice + distanceKm*pricePerKm) *
vehicleMultiplier))`) for comparison with the source's `getEstimatedPrice`. -/
def specPharmacyPrice (cfg : PricingConfig) (mult dist : ℚ) : ℚ :=
  ((jsRound (max cfg.deliveryBasePrice
      ((cfg.deliveryBasePrice + dist * cfg.pricePerKm) * mult)) : ℤ) : ℚ)

/-- Pricing constants used in the spec's scenarios: `basePrice = 10`,
`pricePerKm = 3`, `minPrice = 15`, `deliveryBasePrice = 20`,
`multiplier(CAR) = 1.2`, `multiplier(MOTORCYCLE) = 1`, together with the
same-village flat fee `25` and the food per-km rate `3` recorded in the
source's comments (the `DEFAULT_PRICING` constants file itself is outside
the excerpted source). -/
def claimCfg : PricingConfig where
  basePrice := 10
  pricePerKm := 3
  minPrice := 15
  sameVillagePrice := 25
  deliveryBasePrice := 20
  foodOutsidePricePerKm := 3
  multipliers := fun v =>
    match v with
    | VehicleType.CAR => some (6/5)
    | VehicleType.MOTORCYCLE => some 1
    | VehicleType.TOKTOK => some 1

/-- A concrete village used in scenario instantiations. -/
def villageA : Village where
  id := "v1"
  name := "Ashmun"
  center := { lat := 30, lng := 31 }

/-- A second concrete village, distinct from `villageA`. -/
def villageB : Village where
  id := "v2"
  name := "Sars"
  center := { lat := 30, lng := 30 }

/-- `addToCart` of `RestaurantMenuView` (source lines 218-224): if an item
with the same id is already in the cart its quantity is incremented,
otherwise a new line with quantity 1 is appended. -/
def addToCart (item : MenuItem) (cart : List CartItem) : List CartItem :=
  match cart.find? (fun i => i.id == item.id) with
  | some _ =>
    cart.map (fun i => if i.id = item.id then { i with quantity := i.quantity + 1 } else i)
  | none => cart ++ [{ id := item.id, name := item.name, price := item.price, quantity := 1 }]

/-- `removeFromCart` of `RestaurantMenuView` (source lines 226-228):
decrement the matching item's quantity (clamped at 0 by `Math.max`, which
is natural subtraction here) and drop the lines whose quantity reached 0. -/
def removeFromCart (id : String) (cart : List CartItem) : List CartItem :=
  (cart.map (fun i => if i.id = id then { i with quantity := i.quantity - 1 } else i)).filter
    (fun i => decide (0 < i.quantity))

/-- A user interaction with the cart. -/
inductive CartOp
  | add (item : MenuItem)
  | remove (id : String)

/-- Apply one cart interaction to the current cart state. -/
def applyCartOp (cart : List CartItem) : CartOp → List CartItem
  | CartOp.add item => addToCart item cart
  | CartOp.remove id => removeFromCart id cart

/-- Run a sequence of cart interactions from the initial empty cart
(`useState<CartItem[]>([])`). -/
def runCart (ops : List CartOp) : List CartItem :=
  ops.foldl applyCartOp []

/-- The cart invariant claimed by the spec: every line has positive
quantity and the lines are unique by id. -/
def cartInv (c : List CartItem) : Prop :=
  (∀ i ∈ c, 0 < i.quantity) ∧ (c.map CartItem.id).Nodup

/-- The orders collection of the Firestore-backed realtime store, keyed by
document id. -/
abbrev Store := List (String × Order)

/-- Read an order document by id (first match wins; ids are unique in a
real collection). -/
def getOrder : Store → String → Option Order
  | [], _ => none
  | (k, o) :: rest, id => if k = id then some o else getOrder rest id

/-- Overwrite the fields of the order document with the given id. -/
def setOrder (f : Order → Order) : Store → String → Store
  | [], _ => []
  | (k, o) :: rest, id => if k = id then (k, f o) :: rest else (k, o) :: setOrder f rest id

/-- Firestore's `updateDoc(doc(db, "orders", id), fields)`: one atomic
write that succeeds exactly when the document exists — it imposes no
precondition on the document's current field values. -/
def updateOrderDoc (s : Store) (id : String) (f : Order → Order) : Option Store :=
  match getOrder s id with
  | none => none
  | some _ => some (setOrder f s id)

/-- The JavaScript expression `offer.driverPhoto || null`: an absent photo,
and the falsy empty string, both become null. -/
def normalizePhoto : Option String → Option String
  | some s => if s = "" then none else some s
  | none => none

/-- The field update object passed to `updateDoc` by `handleAcceptOffer`
(source lines 501-509). -/
def applyAcceptFields (now : ℕ) (offer : Offer) (o : Order) : Order :=
  { o with
    driverId := some offer.driverId
    driverName := some offer.driverName
    driverPhone := some offer.driverPhone
    driverPhoto := normalizePhoto offer.driverPhoto
    status := OrderStatus.ACCEPTED
    acceptedAt := some now
    price := offer.price }

/-- `handleAcceptOffer` of `CustomerDashboard` (source lines 498-511): a
plain `updateDoc` on the active order's document. -/
def handleAcceptOffer (now : ℕ) (s : Store) (orderId : String) (offer : Offer) : Option Store :=
  updateOrderDoc s orderId (applyAcceptFields now offer)

/-- The field update object passed to `updateDoc` by `handleRateOrder`
(source lines 560-565). -/
def applyRateFields (now : ℕ) (rating : ℕ) (feedback : String) (o : Order) : Order :=
  { o with
    status := OrderStatus.DELIVERED_RATED
    rating := some rating
    feedback := some feedback.trim
    ratedAt := some now }

/-- `handleRateOrder` of `CustomerDashboard` (source lines 556-574): a
plain `updateDoc` on the active order's document. -/
def handleRateOrder (now : ℕ) (s : Store) (orderId : String) (rating : ℕ)
    (feedback : String) : Option Store :=
  updateOrderDoc s orderId (applyRateFields now rating feedback)

/-- A concrete order still waiting for offers. -/
def waitingOrder : Order where
  customerId := "c1"
  customerPhone := "0100"
  category := OrderCategory.TAXI
  status := OrderStatus.WAITING_FOR_OFFERS
  price := 40
  distance := 10
  driverId := none
  driverName := none
  driverPhone := none
  driverPhoto := none
  createdAt := 1
  acceptedAt := none
  ratedAt := none
  rating := none
  feedback := none

/-- A first concrete offer, from driver d1 at price 50. -/
def offerOne : Offer where
  id := "f1"
  orderId := "o1"
  driverId := "d1"
  driverName := "Ali"
  driverPhone := "0111"
  driverPhoto := none
  driverRating := none
  price := 50

/-- A second concrete offer on the same order, from driver d2 at price 60. -/
def offerTwo : Offer where
  id := "f2"
  orderId := "o1"
  driverId := "d2"
  driverName := "Badr"
  driverPhone := "0222"
  driverPhoto := none
  driverRating := none
  price := 60

/-- A store holding the single waiting order o1. -/
def store0 : Store := [("o1", waitingOrder)]

/-- The store after the first acceptance attempt lands. -/
def storeAfterFirst : Store := (handleAcceptOffer 100 store0 "o1" offerOne).getD []

/-- The store after the second, racing acceptance attempt also lands. -/
def storeAfterBoth : Store := (handleAcceptOffer 200 storeAfterFirst "o1" offerTwo).getD []

/-- A concrete delivered order, ready to be rated. -/
def deliveredOrder : Order :=
  { waitingOrder with
    status := OrderStatus.DELIVERED
    driverId := some "d1"
    driverName := some "Ali"
    driverPhone := some "0111"
    acceptedAt := some 50
    price := 50 }

/-- A store holding the single delivered order o9. -/
def rateStore0 : Store := [("o9", deliveredOrder)]

/-- The store after the first rating call lands. -/
def rateStoreAfterFirst : Store := (handleRateOrder 1000 rateStore0 "o9" 5 "great").getD []

/-- The store after a second rating call also lands. -/
def rateStoreAfterSecond : Store :=
  (handleRateOrder 2000 rateStoreAfterFirst "o9" 1 "bad").getD []

/-- A concrete restaurant whose free-text address equals `villageA`'s name. -/
def restA : Restaurant where
  name := "Koshari El Balad"
  address := "Ashmun"
  lat := 30
  lng := 31

/-- A concrete menu item used in cart witnesses. -/
def menuItemA : MenuItem where
  id := "m1"
  name := "Koshari"
  price := 30

lemma jsRound_intCast (m : ℤ) : jsRound (m : ℚ) = m := by
  rw [jsRound, add_comm, Int.floor_add_int]
  norm_num

lemma jsRound_mono {a b : ℚ} (h : a ≤ b) : jsRound a ≤ jsRound b :=
  Int.floor_mono (by linarith)

/-- When the lower clamp is an integer, the source's `max m (round c)` and
the spec's `round (max m c)` agree. -/
lemma max_jsRound_comm (m : ℤ) (c : ℚ) :
    max (m : ℚ) ((jsRound c : ℤ) : ℚ) = ((jsRound (max (m : ℚ) c) : ℤ) : ℚ) := by
  rcases le_total c (m : ℚ) with h | h
  · have h2 : jsRound c ≤ m := by
      have hm := jsRound_mono h
      rwa [jsRound_intCast] at hm
    rw [max_eq_left h, jsRound_intCast]
    exact max_eq_left (by exact_mod_cast h2)
  · have h2 : m ≤ jsRound c := by
      have hm := jsRound_mono h
      rwa [jsRound_intCast] at hm
    rw [max_eq_right h]
    exact max_eq_right (by exact_mod_cast h2)

lemma getOrder_setOrder {s : Store} {id : String} {o : Order} (f : Order → Order)
    (h : getOrder s id = some o) : getOrder (setOrder f s id) id = some (f o) := by
  induction s with
  | nil => simp [getOrder] at h
  | cons p rest ih =>
    obtain ⟨k, v⟩ := p
    by_cases hk : k = id
    · subst hk
      rw [getOrder, if_pos rfl] at h
      rw [setOrder, if_pos rfl, getOrder, if_pos rfl]
      injection h with h
      rw [h]
    · rw [getOrder, if_neg hk] at h
      rw [setOrder, if_neg hk, getOrder, if_neg hk]
      exact ih h

lemma updateOrderDoc_eq {s : Store} {id : String} {o : Order} (f : Order → Order)
    (h : getOrder s id = some o) : updateOrderDoc s id f = some (setOrder f s id) := by
  rw [updateOrderDoc, h]

/-- C4: for every pricing configuration whose `minPrice` is an integer,
every vehicle type and every distance, the estimate for a cross-village
taxi order equals the spec formula `round(max(minPrice, (basePrice +
distanceKm*pricePerKm) * vehicleMultiplier))`; in the spec's scenario
(distance 10, CAR, basePrice 10, pricePerKm 3, minPrice 15,
multiplier(CAR) 1.2) the price is 48. -/
theorem taxi_cross_price_matches_spec :
    (∀ (cfg : PricingConfig) (k : ℤ), cfg.minPrice = (k : ℚ) →
      ∀ (v : VehicleType) (pv dv : Village) (dist : ℚ), pv.id ≠ dv.id →
        getEstimatedPrice cfg OrderCategory.TAXI v (some pv) (some dv) dist =
          specTaxiCrossPrice cfg (effectiveMultiplier cfg v) dist) ∧
    getEstimatedPrice claimCfg OrderCategory.TAXI VehicleType.CAR
      (some villageA) (some villageB) 10 = 48 := by
  constructor
  · intro cfg k hk v pv dv dist hne
    simp only [getEstimatedPrice, specTaxiCrossPrice, Option.map_some', Option.some.injEq]
    rw [if_neg (by simp [hne]), if_neg (by simp), if_neg (by simp), hk]
    exact max_jsRound_comm k _
  · norm_num [getEstimatedPrice, claimCfg, effectiveMultiplier, villageA, villageB, jsRound]
    decide

/-- Witness for C4 at the spec's scenario input. -/
theorem taxi_cross_price_matches_spec_witness :
    getEstimatedPrice claimCfg OrderCategory.TAXI VehicleType.CAR
      (some villageA) (some villageB) 10 =
      specTaxiCrossPrice claimCfg (effectiveMultiplier claimCfg VehicleType.CAR) 10 :=
  taxi_cross_price_matches_spec.1 claimCfg 15 (by norm_num [claimCfg])
    VehicleType.CAR villageA villageB 10 (by decide)

/-- C5: for every pricing configuration whose `deliveryBasePrice` is an
integer, every vehicle type and every distance, the estimate for a
pharmacy order equals the spec formula `round(max(deliveryBasePrice,
(deliveryBasePrice + distanceKm*pricePerKm) * vehicleMultiplier))`; in the
spec's scenario (distance 2, deliveryBasePrice 20, pricePerKm 3,
multiplier(MOTORCYCLE) 1) the price is 26. -/
theorem pharmacy_price_matches_spec :
    (∀ (cfg : PricingConfig) (k : ℤ), cfg.deliveryBasePrice = (k : ℚ) →
      ∀ (v : VehicleType) (pv : Option Village) (dv : Village) (dist : ℚ),
        getEstimatedPrice cfg OrderCategory.PHARMACY v pv (some dv) dist =
          specPharmacyPrice cfg (effectiveMultiplier cfg v) dist) ∧
    getEstimatedPrice claimCfg OrderCategory.PHARMACY VehicleType.MOTORCYCLE
      none (some villageA) 2 = 26 := by
  constructor
  · intro cfg k hk v pv dv dist
    simp only [getEstimatedPrice, specPharmacyPrice]
    rw [if_neg (by simp), if_pos (by trivial), hk]
    exact max_jsRound_comm k _
  · norm_num [getEstimatedPrice, claimCfg, effectiveMultiplier, villageA, jsRound]
    decide

/-- Witness for C5 at the spec's scenario input. -/
theorem pharmacy_price_matches_spec_witness :
    getEstimatedPrice claimCfg OrderCategory.PHARMACY VehicleType.MOTORCYCLE
      none (some villageA) 2 =
      specPharmacyPrice claimCfg (effectiveMultiplier claimCfg VehicleType.MOTORCYCLE) 2 :=
  pharmacy_price_matches_spec.1 claimCfg 20 (by norm_num [claimCfg])
    VehicleType.MOTORCYCLE none villageA 2

/-- C6: for every non-negative distance, a cross-village food order is
priced at exactly `round(distanceKm * foodOutsidePricePerKm)` — both in
`getEstimatedPrice` and in `RestaurantMenuView`'s `getDeliveryPrice` — and
no minimum floor applies: at distance 1 the price 3 is below the
same-village fee, the taxi `minPrice` and the `deliveryBasePrice`. -/
theorem food_cross_price_no_floor :
    (∀ (cfg : PricingConfig) (v : VehicleType) (pv : Option Village) (dv : Village) (dist : ℚ),
        0 ≤ dist → pv.map Village.id ≠ some dv.id →
        getEstimatedPrice cfg OrderCategory.FOOD v pv (some dv) dist =
          ((jsRound (dist * cfg.foodOutsidePricePerKm) : ℤ) : ℚ)) ∧
    (∀ (cfg : PricingConfig) (rest : Restaurant) (dv : Village) (dist : ℚ),
        0 ≤ dist → rest.address ≠ dv.name →
        getDeliveryPrice cfg rest (some dv) dist =
          ((jsRound (dist * cfg.foodOutsidePricePerKm) : ℤ) : ℚ)) ∧
    (getEstimatedPrice claimCfg OrderCategory.FOOD VehicleType.MOTORCYCLE
        none (some villageA) 1 = 3 ∧
      (3 : ℚ) < claimCfg.sameVillagePrice ∧ (3 : ℚ) < claimCfg.minPrice ∧
      (3 : ℚ) < claimCfg.deliveryBasePrice) := by
  refine ⟨?_, ?_, ?_, ?_, ?_, ?_⟩
  · intro cfg v pv dv dist _ hne
    simp only [getEstimatedPrice]
    rw [if_neg (by simp), if_neg (by simp), if_pos ⟨by trivial, hne⟩]
  · intro cfg rest dv dist _ hne
    simp [getDeliveryPrice, hne]
  · norm_num [getEstimatedPrice, claimCfg, villageA, jsRound]
    decide
  · norm_num [claimCfg]
  · norm_num [claimCfg]
  · norm_num [claimCfg]

/-- Witness for C6 at a concrete cross-village input. -/
theorem food_cross_price_no_floor_witness :
    getEstimatedPrice claimCfg OrderCategory.FOOD VehicleType.MOTORCYCLE
      none (some villageA) 1 =
      ((jsRound (1 * claimCfg.foodOutsidePricePerKm) : ℤ) : ℚ) :=
  food_cross_price_no_floor.1 claimCfg VehicleType.MOTORCYCLE none villageA 1
    (by norm_num) (by simp)

/-- C7: for every vehicle type and every supplied distance, a taxi order
whose pickup and dropoff villages share an id is priced at the flat
`sameVillagePrice`, independent of the distance. -/
theorem taxi_same_village_flat_fee :
    ∀ (cfg : PricingConfig) (v : VehicleType) (pv dv : Village) (dist : ℚ),
      pv.id = dv.id →
      getEstimatedPrice cfg OrderCategory.TAXI v (some pv) (some dv) dist =
        cfg.sameVillagePrice := by
  intro cfg v pv dv dist heq
  simp [getEstimatedPrice, heq]

/-- Witness for C7 at a concrete same-village input with a large distance. -/
theorem taxi_same_village_flat_fee_witness :
    getEstimatedPrice claimCfg OrderCategory.TAXI VehicleType.CAR
      (some villageA) (some villageA) 100 = claimCfg.sameVillagePrice :=
  taxi_same_village_flat_fee claimCfg VehicleType.CAR villageA villageA 100 rfl

/-- C8: food same-village delivery is detected by string equality between
the restaurant's free-text address and the dropoff village's name; exactly
when they are equal the flat `sameVillagePrice` rule applies (for every
distance), and otherwise the per-km formula applies. -/
theorem food_same_village_detection :
    ∀ (cfg : PricingConfig) (rest : Restaurant) (dv : Village) (dist : ℚ),
      (rest.address = dv.name →
        getDeliveryPrice cfg rest (some dv) dist = cfg.sameVillagePrice) ∧
      (rest.address ≠ dv.name →
        getDeliveryPrice cfg rest (some dv) dist =
          ((jsRound (dist * cfg.foodOutsidePricePerKm) : ℤ) : ℚ)) := by
  intro cfg rest dv dist
  constructor
  · intro h
    simp [getDeliveryPrice, h]
  · intro h
    simp [getDeliveryPrice, h]

/-- Witness for C8: the concrete restaurant whose address string equals
the village name gets the flat fee at distance 50. -/
theorem food_same_village_detection_witness :
    getDeliveryPrice claimCfg restA (some villageA) 50 = claimCfg.sameVillagePrice :=
  (food_same_village_detection claimCfg restA villageA 50).1 rfl

/-- C9 counterexample: the price estimate never rejects a missing or
negative distance. `actualRoadDist` starts at 0 and stays 0 when the
distance oracle fails, and `getEstimatedPrice` then returns an ordinary
price computed from distance 0 (20 for the pharmacy scenario, the taxi
minimum 15 cross-village); a negative distance is likewise priced. -/
theorem missing_distance_priced_not_rejected :
    getEstimatedPrice claimCfg OrderCategory.PHARMACY VehicleType.MOTORCYCLE
        none (some villageA) 0 = 20 ∧
      getEstimatedPrice claimCfg OrderCategory.PHARMACY VehicleType.MOTORCYCLE
        none (some villageA) (-4) = 20 ∧
      getEstimatedPrice claimCfg OrderCategory.TAXI VehicleType.MOTORCYCLE
        (some villageA) (some villageB) 0 = 15 := by
  refine ⟨?_, ?_, ?_⟩
  · norm_num [getEstimatedPrice, claimCfg, effectiveMultiplier, villageA, jsRound]
    decide
  · norm_num [getEstimatedPrice, claimCfg, effectiveMultiplier, villageA, jsRound]
    decide
  · norm_num [getEstimatedPrice, claimCfg, effectiveMultiplier, villageA, villageB, jsRound]
    decide

/-- C9 amended: `getEstimatedPrice` performs no distance validation and has
no error outcome; a missing distance (held as 0) or a negative distance is
fed to the ordinary pricing formula, shown here on the pharmacy branch. -/
theorem price_estimate_total_on_any_distance :
    ∀ (cfg : PricingConfig) (v : VehicleType) (pv : Option Village) (dv : Village) (dist : ℚ),
      dist ≤ 0 →
      getEstimatedPrice cfg OrderCategory.PHARMACY v pv (some dv) dist =
        max cfg.deliveryBasePrice
          ((jsRound ((cfg.deliveryBasePrice + dist * cfg.pricePerKm) *
              effectiveMultiplier cfg v) : ℤ) : ℚ) := by
  intro cfg v pv dv dist _
  simp only [getEstimatedPrice]
  rw [if_neg (by simp), if_pos (by trivial)]

/-- Witness for the C9 amended theorem at the missing-distance default 0. -/
theorem price_estimate_total_on_any_distance_witness :
    getEstimatedPrice claimCfg OrderCategory.PHARMACY VehicleType.MOTORCYCLE
      none (some villageA) 0 =
      max claimCfg.deliveryBasePrice
        ((jsRound ((claimCfg.deliveryBasePrice + 0 * claimCfg.pricePerKm) *
            effectiveMultiplier claimCfg VehicleType.MOTORCYCLE) : ℤ) : ℚ) :=
  price_estimate_total_on_any_distance claimCfg VehicleType.MOTORCYCLE
    none villageA 0 le_rfl

/-- C1 counterexample: `handleAcceptOffer` is not a conditional write keyed
on `WAITING_FOR_OFFERS`. Two racing acceptance attempts with different
offers on the same waiting order both succeed (so not exactly one returns
success), the second overwrites the first's driver fields and price (so the
order is affected by it), and a further acceptance on the order — which has
already left `WAITING_FOR_OFFERS` — also succeeds instead of failing with
`ConflictError`. -/
theorem accept_offer_not_conditional :
    (handleAcceptOffer 100 store0 "o1" offerOne).isSome = true ∧
      (handleAcceptOffer 200 storeAfterFirst "o1" offerTwo).isSome = true ∧
      (getOrder storeAfterFirst "o1").map Order.driverId = some (some "d1") ∧
      (getOrder storeAfterFirst "o1").map Order.price = some 50 ∧
      (getOrder storeAfterBoth "o1").map Order.driverId = some (some "d2") ∧
      (getOrder storeAfterBoth "o1").map Order.price = some 60 ∧
      (getOrder storeAfterBoth "o1").map Order.status = some OrderStatus.ACCEPTED ∧
      (handleAcceptOffer 300 storeAfterBoth "o1" offerOne).isSome = true := by
  decide

/-- C1 amended: `handleAcceptOffer` is a single unconditional atomic write:
it succeeds for every order present in the store, regardless of status,
setting driver fields, status `ACCEPTED`, `acceptedAt` and `price` from
the offer; when two acceptance attempts race, both succeed and the later
one's driver fields and price stand; no `ConflictError` is ever produced. -/
theorem accept_offer_unconditional_overwrite :
    ∀ (s : Store) (id : String) (o : Order) (offer : Offer) (now : ℕ),
      getOrder s id = some o →
      ((handleAcceptOffer now s id offer).isSome = true ∧
        Option.bind (handleAcceptOffer now s id offer) (fun t => getOrder t id) =
          some (applyAcceptFields now offer o) ∧
        (∀ (offer2 : Offer) (t2 : ℕ),
          Option.bind (handleAcceptOffer now s id offer)
              (fun t => Option.bind (handleAcceptOffer t2 t id offer2) (fun u => getOrder u id)) =
            some (applyAcceptFields t2 offer2 (applyAcceptFields now offer o)) ∧
          (applyAcceptFields t2 offer2 (applyAcceptFields now offer o)).driverId =
            some offer2.driverId ∧
          (applyAcceptFields t2 offer2 (applyAcceptFields now offer o)).price =
            offer2.price)) := by
  intro s id o offer now h
  have h1 : handleAcceptOffer now s id offer =
      some (setOrder (applyAcceptFields now offer) s id) :=
    updateOrderDoc_eq _ h
  have h2 : getOrder (setOrder (applyAcceptFields now offer) s id) id =
      some (applyAcceptFields now offer o) := getOrder_setOrder _ h
  refine ⟨by rw [h1]; rfl, by rw [h1]; simpa using h2, ?_⟩
  intro offer2 t2
  have h3 : handleAcceptOffer t2 (setOrder (applyAcceptFields now offer) s id) id offer2 =
      some (setOrder (applyAcceptFields t2 offer2)
        (setOrder (applyAcceptFields now offer) s id) id) :=
    updateOrderDoc_eq _ h2
  have h4 := getOrder_setOrder (applyAcceptFields t2 offer2) h2
  refine ⟨?_, rfl, rfl⟩
  rw [h1]
  simpa [h3] using h4

/-- Witness for the C1 amended theorem at the concrete waiting order. -/
theorem accept_offer_unconditional_overwrite_witness :
    (handleAcceptOffer 100 store0 "o1" offerOne).isSome = true :=
  (accept_offer_unconditional_overwrite store0 "o1" waitingOrder offerOne 100 (by decide)).1

/-- C2 counterexample: `handleRateOrder` is not a conditional write. A
first rating call on the delivered order succeeds, but a second rating
call also succeeds (instead of failing with `ConflictError`) and the
stored rating and feedback reflect the second call, not only the first;
moreover a rating call on an order still in `WAITING_FOR_OFFERS` also
succeeds, though rating is claimed legal only from `DELIVERED`. -/
theorem rate_order_not_conditional :
    (handleRateOrder 1000 rateStore0 "o9" 5 "great").isSome = true ∧
      (handleRateOrder 2000 rateStoreAfterFirst "o9" 1 "bad").isSome = true ∧
      (getOrder rateStoreAfterFirst "o9").map Order.rating = some (some 5) ∧
      (getOrder rateStoreAfterFirst "o9").map Order.status =
        some OrderStatus.DELIVERED_RATED ∧
      (getOrder rateStoreAfterSecond "o9").map Order.rating = some (some 1) ∧
      (getOrder rateStoreAfterSecond "o9").map Order.feedback = some (some "bad".trim) ∧
      (handleRateOrder 1 store0 "o1" 4 "early").isSome = true := by
  refine ⟨by decide, by decide, by decide, by decide, by decide, rfl, by decide⟩

/-- C2 amended: `handleRateOrder` is a single unconditional write: it
succeeds for every order present in the store regardless of status,
storing the rating, the trimmed feedback, status `DELIVERED_RATED` and
`ratedAt`; a second call also succeeds and the stored rating reflects the
last call, and no `ConflictError` is ever produced. -/
theorem rate_order_unconditional_overwrite :
    ∀ (s : Store) (id : String) (o : Order) (now r : ℕ) (fb : String),
      getOrder s id = some o →
      ((handleRateOrder now s id r fb).isSome = true ∧
        Option.bind (handleRateOrder now s id r fb) (fun t => getOrder t id) =
          some (applyRateFields now r fb o) ∧
        (applyRateFields now r fb o).rating = some r ∧
        (applyRateFields now r fb o).feedback = some fb.trim ∧
        (applyRateFields now r fb o).status = OrderStatus.DELIVERED_RATED ∧
        (∀ (now2 r2 : ℕ) (fb2 : String),
          Option.bind (handleRateOrder now s id r fb)
              (fun t => Option.bind (handleRateOrder now2 t id r2 fb2) (fun u => getOrder u id)) =
            some (applyRateFields now2 r2 fb2 (applyRateFields now r fb o)) ∧
          (applyRateFields now2 r2 fb2 (applyRateFields now r fb o)).rating = some r2)) := by
  intro s id o now r fb h
  have h1 : handleRateOrder now s id r fb =
      some (setOrder (applyRateFields now r fb) s id) :=
    updateOrderDoc_eq _ h
  have h2 : getOrder (setOrder (applyRateFields now r fb) s id) id =
      some (applyRateFields now r fb o) := getOrder_setOrder _ h
  refine ⟨by rw [h1]; rfl, by rw [h1]; simpa using h2, rfl, rfl, rfl, ?_⟩
  intro now2 r2 fb2
  have h3 : handleRateOrder now2 (setOrder (applyRateFields now r fb) s id) id r2 fb2 =
      some (setOrder (applyRateFields now2 r2 fb2)
        (setOrder (applyRateFields now r fb) s id) id) :=
    updateOrderDoc_eq _ h2
  have h4 := getOrder_setOrder (applyRateFields now2 r2 fb2) h2
  refine ⟨?_, rfl⟩
  rw [h1]
  simpa [h3] using h4

/-- Witness for the C2 amended theorem at the concrete delivered order. -/
theorem rate_order_unconditional_overwrite_witness :
    (handleRateOrder 1000 rateStore0 "o9" 5 "great").isSome = true :=
  (rate_order_unconditional_overwrite rateStore0 "o9" deliveredOrder 1000 5 "great"
    (by decide)).1

/-- C3: a successful `handleAcceptOffer` on an order in
`WAITING_FOR_OFFERS` transitions it to `ACCEPTED`, sets `driverId`,
`driverName`, `driverPhone` from the offer and `driverPhoto` from the
offer's photo (null-coalesced), stamps `acceptedAt`, and sets the order's
price equal to the offer's price, superseding the original estimate. -/
theorem accept_offer_success_effects :
    ∀ (s : Store) (id : String) (o : Order) (offer : Offer) (now : ℕ) (t : Store),
      getOrder s id = some o → o.status = OrderStatus.WAITING_FOR_OFFERS →
      handleAcceptOffer now s id offer = some t →
      ∀ o2, getOrder t id = some o2 →
        (o2.status = OrderStatus.ACCEPTED ∧ o2.driverId = some offer.driverId ∧
          o2.driverName = some offer.driverName ∧ o2.driverPhone = some offer.driverPhone ∧
          o2.driverPhoto = normalizePhoto offer.driverPhoto ∧ o2.acceptedAt = some now ∧
          o2.price = offer.price) := by
  intro s id o offer now t h _ ht o2 h2
  have h1 : handleAcceptOffer now s id offer =
      some (setOrder (applyAcceptFields now offer) s id) :=
    updateOrderDoc_eq _ h
  rw [h1] at ht
  injection ht with ht
  rw [← ht, getOrder_setOrder _ h] at h2
  injection h2 with h2
  rw [← h2]
  exact ⟨rfl, rfl, rfl, rfl, rfl, rfl, rfl⟩

/-- Witness for C3 at the concrete waiting order and first offer. -/
theorem accept_offer_success_effects_witness :
    (applyAcceptFields 100 offerOne waitingOrder).status = OrderStatus.ACCEPTED ∧
      (applyAcceptFields 100 offerOne waitingOrder).driverId = some offerOne.driverId ∧
      (applyAcceptFields 100 offerOne waitingOrder).driverName = some offerOne.driverName ∧
      (applyAcceptFields 100 offerOne waitingOrder).driverPhone = some offerOne.driverPhone ∧
      (applyAcceptFields 100 offerOne waitingOrder).driverPhoto =
        normalizePhoto offerOne.driverPhoto ∧
      (applyAcceptFields 100 offerOne waitingOrder).acceptedAt = some 100 ∧
      (applyAcceptFields 100 offerOne waitingOrder).price = offerOne.price :=
  accept_offer_success_effects store0 "o1" waitingOrder offerOne 100 storeAfterFirst
    (by decide) (by decide) (by decide) (applyAcceptFields 100 offerOne waitingOrder)
    (by decide)

lemma map_preserves_id (f : CartItem → CartItem) (hf : ∀ i, (f i).id = i.id) :
    ∀ c : List CartItem, (c.map f).map CartItem.id = c.map CartItem.id := by
  intro c
  induction c with
  | nil => rfl
  | cons a t ih => simp [hf, ih]

lemma cartInv_addToCart (item : MenuItem) {c : List CartItem} (h : cartInv c) :
    cartInv (addToCart item c) := by
  obtain ⟨hq, hn⟩ := h
  rw [addToCart]
  cases hfind : c.find? (fun i => i.id == item.id) with
  | some j =>
    refine ⟨?_, ?_⟩
    · intro i hi
      rw [List.mem_map] at hi
      obtain ⟨a, ha, rfl⟩ := hi
      by_cases hid : a.id = item.id
      · simp only [if_pos hid]
        exact Nat.succ_pos _
      · simp only [if_neg hid]
        exact hq a ha
    · rw [map_preserves_id _ ?_ c]
      · exact hn
      · intro i
        by_cases hid : i.id = item.id <;> simp [hid]
  | none =>
    refine ⟨?_, ?_⟩
    · intro i hi
      rw [List.mem_append] at hi
      rcases hi with hi | hi
      · exact hq i hi
      · rw [List.mem_singleton] at hi
        subst hi
        exact Nat.one_pos
    · rw [List.map_append, List.nodup_append]
      refine ⟨hn, List.nodup_singleton _, ?_⟩
      intro x hx hx1
      rw [List.map_singleton, List.mem_singleton] at hx1
      subst hx1
      rw [List.mem_map] at hx
      obtain ⟨a, ha, haid⟩ := hx
      have hnone := List.find?_eq_none.mp hfind a ha
      exact hnone (beq_iff_eq.mpr haid)

lemma cartInv_removeFromCart (id : String) {c : List CartItem} (h : cartInv c) :
    cartInv (removeFromCart id c) := by
  obtain ⟨_, hn⟩ := h
  refine ⟨?_, ?_⟩
  · intro i hi
    rw [removeFromCart, List.mem_filter] at hi
    exact of_decide_eq_true hi.2
  · have hsub : List.Sublist (removeFromCart id c)
        (c.map (fun i => if i.id = id then { i with quantity := i.quantity - 1 } else i)) := by
      rw [removeFromCart]
      exact List.filter_sublist _
    have hsub2 := hsub.map CartItem.id
    rw [map_preserves_id _ ?_ c] at hsub2
    · exact hn.sublist hsub2
    · intro i
      by_cases hid : i.id = id <;> simp [hid]

lemma cartInv_applyCartOp {c : List CartItem} (h : cartInv c) (op : CartOp) :
    cartInv (applyCartOp c op) := by
  cases op with
  | add item => exact cartInv_addToCart item h
  | remove id => exact cartInv_removeFromCart id h

lemma cartInv_foldl :
    ∀ (ops : List CartOp) (c : List CartItem), cartInv c → cartInv (ops.foldl applyCartOp c) := by
  intro ops
  induction ops with
  | nil => intro c h; exact h
  | cons op rest ih =>
    intro c h
    exact ih _ (cartInv_applyCartOp h op)

lemma cartInv_nil : cartInv [] := by
  refine ⟨?_, List.nodup_nil⟩
  intro i hi
  cases hi

lemma eq_of_mem_nodup_map_id :
    ∀ {c : List CartItem}, (c.map CartItem.id).Nodup →
      ∀ {a b : CartItem}, a ∈ c → b ∈ c → a.id = b.id → a = b := by
  intro c
  induction c with
  | nil =>
    intro _ a b ha
    cases ha
  | cons x t ih =>
    intro hn a b ha hb hid
    rw [List.map_cons, List.nodup_cons] at hn
    obtain ⟨hx, hn'⟩ := hn
    rcases List.mem_cons.mp ha with rfl | ha'
    · rcases List.mem_cons.mp hb with rfl | hb'
      · rfl
      · exact absurd (by rw [hid]; exact List.mem_map_of_mem _ hb') hx
    · rcases List.mem_cons.mp hb with rfl | hb'
      · exact absurd (by rw [← hid]; exact List.mem_map_of_mem _ ha') hx
      · exact ih hn' ha' hb' hid

/-- C10: after every sequence of `addToCart` / `removeFromCart` operations
from the empty cart, every cart line has positive quantity and the lines
are unique by id; `addToCart` on an id already in the cart increments that
line's quantity without changing the number of lines, and `removeFromCart`
drops a line whose quantity reaches 0 (no line with the removed id
survives when its quantity was 1). -/
theorem cart_invariant_holds :
    (∀ ops : List CartOp, cartInv (runCart ops)) ∧
      (∀ (cart : List CartItem) (item : MenuItem) (i : CartItem), i ∈ cart → i.id = item.id →
        ((addToCart item cart).length = cart.length ∧
          { id := i.id, name := i.name, price := i.price, quantity := i.quantity + 1 } ∈
            addToCart item cart)) ∧
      (∀ (cart : List CartItem) (i : CartItem), cartInv cart → i ∈ cart → i.quantity = 1 →
        ∀ j ∈ removeFromCart i.id cart, j.id ≠ i.id) := by
  refine ⟨?_, ?_, ?_⟩
  · intro ops
    exact cartInv_foldl ops [] cartInv_nil
  · intro cart item i hi hid
    have hfind : (cart.find? (fun x => x.id == item.id)).isSome := by
      rw [List.find?_isSome]
      exact ⟨i, hi, by rw [beq_iff_eq]; exact hid⟩
    obtain ⟨j, hj⟩ := Option.isSome_iff_exists.mp hfind
    rw [addToCart, hj]
    refine ⟨by simp, ?_⟩
    show { id := i.id, name := i.name, price := i.price, quantity := i.quantity + 1 } ∈
      cart.map (fun x => if x.id = item.id then { x with quantity := x.quantity + 1 } else x)
    rw [List.mem_map]
    exact ⟨i, hi, by simp [hid]⟩
  · intro cart i hinv hi hq1 j hj hjid
    rw [removeFromCart, List.mem_filter] at hj
    obtain ⟨hjm, hjq⟩ := hj
    rw [List.mem_map] at hjm
    obtain ⟨a, ha, hae⟩ := hjm
    have hidpres : j.id = a.id := by
      rw [← hae]
      by_cases hcase : a.id = i.id <;> simp [hcase]
    have haid : a.id = i.id := by rw [← hidpres, hjid]
    obtain rfl := eq_of_mem_nodup_map_id hinv.2 ha hi haid
    rw [if_pos haid] at hae
    have hpos : 0 < j.quantity := of_decide_eq_true hjq
    rw [← hae] at hpos
    simp only [] at hpos
    rw [hq1] at hpos
    exact absurd hpos (by decide)

/-- Witness for C10: a concrete run (add the same item twice, then remove
it once) satisfies the cart invariant, and `addToCart` on a cart already
holding the item keeps the number of lines at one. -/
theorem cart_invariant_holds_witness :
    cartInv (runCart [CartOp.add menuItemA, CartOp.add menuItemA, CartOp.remove "m1"]) ∧
      (addToCart menuItemA
        [{ id := "m1", name := "Koshari", price := 30, quantity := 2 }]).length = 1 :=
  ⟨cart_invariant_holds.1 _,
    (cart_invariant_holds.2.1 [{ id := "m1", name := "Koshari", price := 30, quantity := 2 }]
      menuItemA { id := "m1", name := "Koshari", price := 30, quantity := 2 }
      (by simp) (by rfl)).1⟩

end Wasallha
